import Mathlib

/-!
Shallow embedding of the video-store media pipeline:
the video/image upload routes, the video/image delete routes,
and the owner-scoped listing, with the Prisma schema columns
from the migrations. Each route handler is modelled as a pure
function from the request data, the current store contents and
the (externally decided) Cloudinary call outcome to a response,
the new store contents and a flag recording whether the
Cloudinary call was reached.
-/

namespace VideoStore

/-- A file from the multipart form: its declared mime type and byte size
(`file.type`, `file.size` in the routes). -/
structure FileData where
  type : String
  size : Nat
  deriving DecidableEq, Repr

/-- The data of one upload request as the routes see it: the Clerk
`userId` (absent when unauthenticated), and the `file`, `title`,
`description` entries of the form data (each possibly absent). -/
structure UploadRequest where
  userId : Option String
  file : Option FileData
  title : Option String
  description : Option String
  deriving DecidableEq, Repr

/-- The fields the routes read off a successful Cloudinary upload
response: `public_id`, `secure_url`, and (used by the video route only)
`bytes` and `duration`, either of which the provider may omit. -/
structure CloudinaryUploadResult where
  public_id : String
  secure_url : String
  bytes : Option Nat
  duration : Option ℚ
  deriving DecidableEq, Repr

/-- A failed Cloudinary call as the catch block sees it: an optional
`http_code` and a message. -/
structure CloudinaryError where
  http_code : Option Nat
  message : String
  deriving DecidableEq, Repr

/-- `MAX_FILE_SIZE` of the video upload route: `20 * 1024 * 1024`. -/
def videoMaxFileSize : Nat := 20 * 1024 * 1024

/-- `ALLOWED_FORMATS` of the video upload route. -/
def videoAllowedFormats : List String :=
  ["video/mp4", "video/mpeg", "video/quicktime", "video/x-msvideo",
   "video/webm", "video/x-matroska"]

/-- `MAX_FILE_SIZE` of the image upload route: `10 * 1024 * 1024`. -/
def imageMaxFileSize : Nat := 10 * 1024 * 1024

/-- `ALLOWED_FORMATS` of the image upload route. -/
def imageAllowedFormats : List String :=
  ["image/jpeg", "image/png", "image/webp"]

/-- Drop leading whitespace characters from a character list. -/
def dropWhileWs : List Char → List Char
  | [] => []
  | c :: cs => if c.isWhitespace then dropWhileWs cs else c :: cs

/-- JavaScript `s.trim()`: strip leading and trailing whitespace. -/
def jsTrim (s : String) : String :=
  ⟨dropWhileWs ((dropWhileWs s.data.reverse).reverse)⟩

/-- The JavaScript test `!title || title.trim().length === 0` on a
`string | null` value (an absent or empty string is falsy). -/
def titleMissing : Option String → Bool
  | none => true
  | some s => s.data.isEmpty || (jsTrim s).data.isEmpty

/-- The JavaScript expression `description?.trim() || null`: an absent
description stays absent, and a description that trims to the empty
string becomes null; otherwise the trimmed string is kept. -/
def trimOrNull : Option String → Option String
  | none => none
  | some s => if (jsTrim s).data.isEmpty then none else some (jsTrim s)

/-- The JavaScript fallback `v || d` on a numeric field that may be
absent: an absent or zero value yields the fallback. -/
def jsOrNat (v : Option Nat) (d : Nat) : Nat :=
  match v with
  | none => d
  | some n => if n = 0 then d else n

/-- The JavaScript fallback `v || 0` on the (rational-modelled)
duration field: absent yields 0, a present value is kept (a present 0
falls back to 0, which is the same value). -/
def jsOrRat (v : Option ℚ) (d : ℚ) : ℚ :=
  match v with
  | none => d
  | some q => if q = 0 then d else q

/-- The `data` object passed to `prisma.video.create` by the video
upload route. -/
structure VideoCreateData where
  title : String
  description : Option String
  publicId : String
  userId : String
  originalSize : Nat
  compressedSize : Nat
  duration : ℚ
  deriving DecidableEq, Repr

/-- The `data` object passed to `prisma.image.create` by the image
upload route. It carries no `userId` field: the route does not supply
one. -/
structure ImageCreateData where
  title : String
  description : Option String
  publicId : String
  originalSize : Nat
  deriving DecidableEq, Repr

/-- The distinct responses an upload route can produce, keyed by the
branch of the handler that produces them. -/
inductive UploadResponse (Rec : Type) where
  | unauthorized                                  -- 401
  | errNoFile                                     -- 400
  | errNoTitle                                    -- 400
  | errInvalidFormat                              -- 400
  | errTooLarge                                   -- 400
  | cloudinaryFailed (status : Nat)               -- error.http_code or 500
  | created (rec : Rec) (secureUrl : String)      -- 201
  deriving DecidableEq, Repr

/-- The status the catch block assigns to a Cloudinary error:
`error.http_code` when that field is present and truthy, otherwise the
generic 500. -/
def cloudinaryErrorStatus (e : CloudinaryError) : Nat :=
  match e.http_code with
  | none => 500
  | some c => if c = 0 then 500 else c

/-- The outcome of one upload route call: the response, the store
contents after the call, and whether the Cloudinary upload was
invoked. -/
structure UploadOutcome (Rec : Type) where
  response : UploadResponse Rec
  store : List Rec
  cloudinaryCalled : Bool
  deriving DecidableEq, Repr

/-- `POST /api/video-upload`: authentication check, then the four
validations in source order (file, title, format, size), then the
Cloudinary upload (its outcome is the `gateway` argument), then
`prisma.video.create`. A Cloudinary failure is caught and no store
write happens. -/
def videoUploadPOST (store : List VideoCreateData) (req : UploadRequest)
    (gateway : Except CloudinaryError CloudinaryUploadResult) :
    UploadOutcome VideoCreateData :=
  match req.userId with
  | none => ⟨.unauthorized, store, false⟩
  | some userId =>
    match req.file with
    | none => ⟨.errNoFile, store, false⟩
    | some file =>
      if titleMissing req.title then ⟨.errNoTitle, store, false⟩
      else if ¬ videoAllowedFormats.contains file.type then
        ⟨.errInvalidFormat, store, false⟩
      else if file.size > videoMaxFileSize then ⟨.errTooLarge, store, false⟩
      else
        match gateway with
        | .error e => ⟨.cloudinaryFailed (cloudinaryErrorStatus e), store, true⟩
        | .ok res =>
          let video : VideoCreateData :=
            { title := jsTrim (req.title.getD "")
              description := trimOrNull req.description
              publicId := res.public_id
              userId := userId
              originalSize := file.size
              compressedSize := jsOrNat res.bytes file.size
              duration := jsOrRat res.duration 0 }
          ⟨.created video res.secure_url, store ++ [video], true⟩

/-- `POST /api/image-upload`: same shape as the video route, with the
image limits, and a `prisma.image.create` call whose data omits
`userId`. -/
def imageUploadPOST (store : List ImageCreateData) (req : UploadRequest)
    (gateway : Except CloudinaryError CloudinaryUploadResult) :
    UploadOutcome ImageCreateData :=
  match req.userId with
  | none => ⟨.unauthorized, store, false⟩
  | some _userId =>
    match req.file with
    | none => ⟨.errNoFile, store, false⟩
    | some file =>
      if titleMissing req.title then ⟨.errNoTitle, store, false⟩
      else if ¬ imageAllowedFormats.contains file.type then
        ⟨.errInvalidFormat, store, false⟩
      else if file.size > imageMaxFileSize then ⟨.errTooLarge, store, false⟩
      else
        match gateway with
        | .error e => ⟨.cloudinaryFailed (cloudinaryErrorStatus e), store, true⟩
        | .ok res =>
          let image : ImageCreateData :=
            { title := jsTrim (req.title.getD "")
              description := trimOrNull req.description
              publicId := res.public_id
              originalSize := file.size }
          ⟨.created image res.secure_url, store ++ [image], true⟩

/-- The NOT NULL columns the Prisma migrations declare for the
`images` table (initial `add_image_model` migration plus the
`add_user_id_to_media` migration's `ADD COLUMN "userId" TEXT NOT
NULL`), excluding the id/timestamp columns the database fills
itself. -/
def imagesRequiredColumns : List String :=
  ["title", "publicId", "originalSize", "userId"]

/-- The column names the image upload route's `prisma.image.create`
call supplies in its `data` object. -/
def imageCreateSuppliedColumns : List String :=
  ["title", "description", "publicId", "originalSize"]

/-- A stored media row as the delete routes and the dashboard see it:
the database-assigned `id` and `createdAt` together with the fields the
delete routes read (`userId`, `publicId`). -/
structure StoredMedia where
  id : String
  userId : String
  publicId : String
  createdAt : Nat
  deriving DecidableEq, Repr

/-- The distinct responses a delete route can produce. -/
inductive DeleteResponse where
  | unauthorized     -- 401
  | notFound         -- 404
  | forbidden        -- 403
  | deleted          -- 200
  deriving DecidableEq, Repr

/-- The outcome of one delete route call: the response, the store
contents after the call, and whether `cloudinary.uploader.destroy` was
invoked. -/
structure DeleteOutcome where
  response : DeleteResponse
  store : List StoredMedia
  destroyCalled : Bool
  deriving DecidableEq, Repr

/-- `DELETE /api/video/[id]` and `DELETE /api/image/[id]` (the two
handlers are line-for-line identical up to the media kind):
authentication check, `findUnique` by id, 404 when absent, 403 when
`record.userId !== userId`, then the Cloudinary `destroy` inside a
try/catch whose catch only logs (the `destroyResult` argument is the
outcome of that call, and the handler ignores it), then
`prisma.…​.delete` and a 200. -/
def mediaDELETE (store : List StoredMedia) (caller : Option String)
    (id : String) (_destroyResult : Except String Unit) : DeleteOutcome :=
  match caller with
  | none => ⟨.unauthorized, store, false⟩
  | some userId =>
    match store.find? (fun r => r.id == id) with
    | none => ⟨.notFound, store, false⟩
    | some record =>
      if record.userId ≠ userId then ⟨.forbidden, store, false⟩
      else ⟨.deleted, store.filter (fun r => r.id ≠ id), true⟩

/-- Insert a record into a list kept in `createdAt`-descending order. -/
def insertByCreatedAtDesc (r : StoredMedia) :
    List StoredMedia → List StoredMedia
  | [] => [r]
  | x :: xs =>
    if x.createdAt ≥ r.createdAt then x :: insertByCreatedAtDesc r xs
    else r :: x :: xs

/-- Sort a list of records by `createdAt` descending. -/
def sortByCreatedAtDesc : List StoredMedia → List StoredMedia
  | [] => []
  | x :: xs => insertByCreatedAtDesc x (sortByCreatedAtDesc xs)

/-- Modelled from the spec: the repository has no listing route under
`src/` (the dashboard calls `GET /api/video` and `GET /api/image`, but
no such route file is present), so `listByOwner(ownerId, kind)` is
taken from the spec's words: the records whose `ownerId` equals the
queried owner, ordered by `createdAt` descending. -/
def listByOwner (store : List StoredMedia) (ownerId : String) :
    List StoredMedia :=
  sortByCreatedAtDesc (store.filter (fun r => r.userId == ownerId))

/-- C1: for every valid upload, the created record's owner equals the
caller. This HOLDS on the video route (shown here on a concrete valid
upload by `u1`, whose created record carries `userId = "u1"`), but the
image route's `prisma.image.create` data supplies no `userId` column at
all, even though the `add_user_id_to_media` migration makes
`images.userId` NOT NULL (and the image delete route reads it): the
image half of the claim is violated by the code. -/
theorem C1_image_create_omits_owner :
    (videoUploadPOST []
        { userId := some "u1", file := some ⟨"video/mp4", 1000⟩,
          title := some "demo", description := none }
        (.ok ⟨"videos/u1/123-abc", "https://cdn/x", some 600, some 1⟩)
      ).response =
      UploadResponse.created
        { title := "demo", description := none,
          publicId := "videos/u1/123-abc", userId := "u1",
          originalSize := 1000, compressedSize := 600, duration := 1 }
        "https://cdn/x"
    ∧ "userId" ∈ imagesRequiredColumns
    ∧ "userId" ∉ imageCreateSuppliedColumns := by
  refine ⟨?_, by decide, by decide⟩
  decide

lemma mem_insertByCreatedAtDesc {x r : StoredMedia} {l : List StoredMedia} :
    x ∈ insertByCreatedAtDesc r l ↔ x = r ∨ x ∈ l := by
  induction l with
  | nil => simp [insertByCreatedAtDesc]
  | cons a as ih =>
    simp only [insertByCreatedAtDesc]
    split
    · simp only [List.mem_cons, ih]
      tauto
    · simp

lemma mem_sortByCreatedAtDesc {x : StoredMedia} {l : List StoredMedia} :
    x ∈ sortByCreatedAtDesc l ↔ x ∈ l := by
  induction l with
  | nil => simp [sortByCreatedAtDesc]
  | cons a as ih => simp [sortByCreatedAtDesc, mem_insertByCreatedAtDesc, ih]

lemma pairwise_insertByCreatedAtDesc {r : StoredMedia} {l : List StoredMedia}
    (h : l.Pairwise (fun a b => b.createdAt ≤ a.createdAt)) :
    (insertByCreatedAtDesc r l).Pairwise
      (fun a b => b.createdAt ≤ a.createdAt) := by
  induction l with
  | nil => simp [insertByCreatedAtDesc]
  | cons a as ih =>
    rcases List.pairwise_cons.1 h with ⟨ha, has⟩
    simp only [insertByCreatedAtDesc]
    split
    case isTrue hge =>
      refine List.pairwise_cons.2 ⟨?_, ih has⟩
      intro b hb
      rcases mem_insertByCreatedAtDesc.1 hb with rfl | hb'
      · exact hge
      · exact ha b hb'
    case isFalse hlt =>
      refine List.pairwise_cons.2 ⟨?_, h⟩
      intro b hb
      have har : a.createdAt ≤ r.createdAt := le_of_lt (lt_of_not_ge hlt)
      rcases List.mem_cons.1 hb with rfl | hb'
      · exact har
      · exact le_trans (ha b hb') har

lemma pairwise_sortByCreatedAtDesc (l : List StoredMedia) :
    (sortByCreatedAtDesc l).Pairwise
      (fun a b => b.createdAt ≤ a.createdAt) := by
  induction l with
  | nil => simp [sortByCreatedAtDesc]
  | cons a as ih => exact pairwise_insertByCreatedAtDesc ih

/-- C8: for any mixture of owners' records in the store, the listing
returns only records whose owner equals the queried owner, ordered by
creation time descending. (`listByOwner` is modelled from the spec:
the repository has no listing route file under `src/`.) -/
theorem C8_listByOwner_scoped_and_sorted (store : List StoredMedia)
    (o : String) :
    (∀ r ∈ listByOwner store o, r.userId = o)
    ∧ (listByOwner store o).Pairwise
        (fun a b => b.createdAt ≤ a.createdAt) := by
  constructor
  · intro r hr
    have hmem : r ∈ store.filter (fun x => x.userId == o) :=
      mem_sortByCreatedAtDesc.1 hr
    have := List.of_mem_filter hmem
    simpa using this
  · exact pairwise_sortByCreatedAtDesc _

/-- Witness for C8 at a store mixing records of `u1` and `u2`: the
listing for `u1` keeps exactly `u1`'s records, newest first. -/
theorem C8_listByOwner_scoped_and_sorted_witness :
    ((∀ r ∈ listByOwner [⟨"a", "u1", "p1", 5⟩, ⟨"b", "u2", "p2", 7⟩,
        ⟨"c", "u1", "p3", 9⟩] "u1", r.userId = "u1")
      ∧ (listByOwner [⟨"a", "u1", "p1", 5⟩, ⟨"b", "u2", "p2", 7⟩,
          ⟨"c", "u1", "p3", 9⟩] "u1").Pairwise
          (fun a b => b.createdAt ≤ a.createdAt))
    ∧ listByOwner [⟨"a", "u1", "p1", 5⟩, ⟨"b", "u2", "p2", 7⟩,
        ⟨"c", "u1", "p3", 9⟩] "u1" =
      [⟨"c", "u1", "p3", 9⟩, ⟨"a", "u1", "p1", 5⟩] :=
  ⟨C8_listByOwner_scoped_and_sorted
    [⟨"a", "u1", "p1", 5⟩, ⟨"b", "u2", "p2", 7⟩, ⟨"c", "u1", "p3", 9⟩] "u1",
    by decide⟩

lemma videoUploadPOST_error_store (vs : List VideoCreateData)
    (req : UploadRequest) (e : CloudinaryError) :
    (videoUploadPOST vs req (.error e)).store = vs := by
  rcases req with ⟨u, f, t, d⟩
  cases u <;> cases f <;> simp [videoUploadPOST] <;> split_ifs <;> rfl

lemma imageUploadPOST_error_store (ist : List ImageCreateData)
    (req : UploadRequest) (e : CloudinaryError) :
    (imageUploadPOST ist req (.error e)).store = ist := by
  rcases req with ⟨u, f, t, d⟩
  cases u <;> cases f <;> simp [imageUploadPOST] <;> split_ifs <;> rfl

lemma videoUploadPOST_error_not_created (vs : List VideoCreateData)
    (req : UploadRequest) (e : CloudinaryError)
    (rec : VideoCreateData) (url : String) :
    (videoUploadPOST vs req (.error e)).response ≠ .created rec url := by
  rcases req with ⟨u, f, t, d⟩
  cases u <;> cases f <;> simp [videoUploadPOST] <;> split_ifs <;> simp

lemma imageUploadPOST_error_not_created (ist : List ImageCreateData)
    (req : UploadRequest) (e : CloudinaryError)
    (rec : ImageCreateData) (url : String) :
    (imageUploadPOST ist req (.error e)).response ≠ .created rec url := by
  rcases req with ⟨u, f, t, d⟩
  cases u <;> cases f <;> simp [imageUploadPOST] <;> split_ifs <;> simp

/-- C2: when the Cloudinary upload fails, neither route creates a
record (the store is unchanged and the response is never `created`);
conversely, any change to the store requires a successful Cloudinary
result — the store is never written first. -/
theorem C2_remote_success_precedes_store_write
    (vs : List VideoCreateData) (ist : List ImageCreateData)
    (req : UploadRequest) (e : CloudinaryError)
    (g : Except CloudinaryError CloudinaryUploadResult) :
    ((videoUploadPOST vs req (.error e)).store = vs
      ∧ ∀ rec url, (videoUploadPOST vs req (.error e)).response ≠ .created rec url)
    ∧ ((imageUploadPOST ist req (.error e)).store = ist
      ∧ ∀ rec url, (imageUploadPOST ist req (.error e)).response ≠ .created rec url)
    ∧ ((videoUploadPOST vs req g).store ≠ vs → g.isOk = true)
    ∧ ((imageUploadPOST ist req g).store ≠ ist → g.isOk = true) := by
  refine ⟨⟨videoUploadPOST_error_store vs req e,
      fun rec url => videoUploadPOST_error_not_created vs req e rec url⟩,
    ⟨imageUploadPOST_error_store ist req e,
      fun rec url => imageUploadPOST_error_not_created ist req e rec url⟩,
    ?_, ?_⟩
  · intro hne
    cases g with
    | error e' => exact absurd (videoUploadPOST_error_store vs req e') hne
    | ok _ => rfl
  · intro hne
    cases g with
    | error e' => exact absurd (imageUploadPOST_error_store ist req e') hne
    | ok _ => rfl

/-- Witness for C2: a failing Cloudinary call (quota error 420) on an
otherwise valid video upload by `u1` leaves the store empty. -/
theorem C2_remote_success_precedes_store_write_witness :
    (videoUploadPOST []
        { userId := some "u1", file := some ⟨"video/mp4", 1000⟩,
          title := some "demo", description := none }
        (.error ⟨some 420, "quota"⟩)).store = ([] : List VideoCreateData) :=
  (C2_remote_success_precedes_store_write [] []
    { userId := some "u1", file := some ⟨"video/mp4", 1000⟩,
      title := some "demo", description := none }
    ⟨some 420, "quota"⟩ (.error ⟨some 420, "quota"⟩)).1.1

/-- C3: when the record exists and belongs to the caller, a failing
Cloudinary `destroy` is swallowed: the store record is still deleted
and the route returns success. -/
theorem C3_destroy_failure_swallowed
    (store : List StoredMedia) (u id : String) (r : StoredMedia) (e : String)
    (hfind : store.find? (fun x => x.id == id) = some r)
    (hown : r.userId = u) :
    mediaDELETE store (some u) id (.error e) =
      ⟨.deleted, store.filter (fun x => x.id ≠ id), true⟩ := by
  simp [mediaDELETE, hfind, hown]

/-- Witness for C3 at a concrete store: `u1` deletes their own record
`"a"` while the Cloudinary destroy fails. -/
theorem C3_destroy_failure_swallowed_witness :
    mediaDELETE [⟨"a", "u1", "videos/u1/x", 5⟩, ⟨"b", "u2", "videos/u2/y", 7⟩]
        (some "u1") "a" (.error "destroy failed") =
      ⟨.deleted, [⟨"b", "u2", "videos/u2/y", 7⟩], true⟩ := by
  have h := C3_destroy_failure_swallowed
    [⟨"a", "u1", "videos/u1/x", 5⟩, ⟨"b", "u2", "videos/u2/y", 7⟩]
    "u1" "a" ⟨"a", "u1", "videos/u1/x", 5⟩ "destroy failed" (by decide) rfl
  simpa using h

/-- C4: when the record exists but belongs to someone else, the route
answers Forbidden, the store is unchanged and `destroy` is never
invoked. -/
theorem C4_forbidden_preserves_record
    (store : List StoredMedia) (u id : String) (r : StoredMedia)
    (d : Except String Unit)
    (hfind : store.find? (fun x => x.id == id) = some r)
    (hown : r.userId ≠ u) :
    mediaDELETE store (some u) id d = ⟨.forbidden, store, false⟩ := by
  simp [mediaDELETE, hfind, hown]

/-- Witness for C4: `u2` tries to delete `u1`'s record `"a"`. -/
theorem C4_forbidden_preserves_record_witness :
    mediaDELETE [⟨"a", "u1", "videos/u1/x", 5⟩] (some "u2") "a" (.ok ()) =
      ⟨.forbidden, [⟨"a", "u1", "videos/u1/x", 5⟩], false⟩ :=
  C4_forbidden_preserves_record [⟨"a", "u1", "videos/u1/x", 5⟩] "u2" "a"
    ⟨"a", "u1", "videos/u1/x", 5⟩ (.ok ()) (by decide) (by decide)

/-- C5: on an authenticated request both upload routes run their
validations in source order — missing file, then missing/blank title,
then invalid format, then oversize — so a multiply-invalid request
reports the earliest failing check. -/
theorem C5_validation_order
    (vs : List VideoCreateData) (ist : List ImageCreateData)
    (req : UploadRequest) (u : String)
    (g : Except CloudinaryError CloudinaryUploadResult)
    (hauth : req.userId = some u) :
    (req.file = none →
      (videoUploadPOST vs req g).response = .errNoFile
      ∧ (imageUploadPOST ist req g).response = .errNoFile)
    ∧ (∀ f, req.file = some f → titleMissing req.title = true →
      (videoUploadPOST vs req g).response = .errNoTitle
      ∧ (imageUploadPOST ist req g).response = .errNoTitle)
    ∧ (∀ f, req.file = some f → titleMissing req.title = false →
      (videoAllowedFormats.contains f.type = false →
        (videoUploadPOST vs req g).response = .errInvalidFormat)
      ∧ (imageAllowedFormats.contains f.type = false →
        (imageUploadPOST ist req g).response = .errInvalidFormat))
    ∧ (∀ f, req.file = some f → titleMissing req.title = false →
      (videoAllowedFormats.contains f.type = true → f.size > videoMaxFileSize →
        (videoUploadPOST vs req g).response = .errTooLarge)
      ∧ (imageAllowedFormats.contains f.type = true → f.size > imageMaxFileSize →
        (imageUploadPOST ist req g).response = .errTooLarge)) := by
  rcases req with ⟨ru, rf, rt, rd⟩
  simp only [UploadRequest.mk.injEq] at hauth ⊢
  refine ⟨?_, ?_, ?_, ?_⟩
  · rintro rfl
    subst hauth
    exact ⟨rfl, rfl⟩
  · rintro f rfl ht
    subst hauth
    constructor <;> simp [videoUploadPOST, imageUploadPOST, ht]
  · rintro f rfl ht
    subst hauth
    refine ⟨fun hc => ?_, fun hc => ?_⟩
    · have hc' : f.type ∉ videoAllowedFormats := by simpa using hc
      simp [videoUploadPOST, ht, hc']
    · have hc' : f.type ∉ imageAllowedFormats := by simpa using hc
      simp [imageUploadPOST, ht, hc']
  · rintro f rfl ht
    subst hauth
    refine ⟨fun hc hs => ?_, fun hc hs => ?_⟩
    · have hc' : f.type ∈ videoAllowedFormats := by simpa using hc
      simp [videoUploadPOST, ht, hc', hs]
    · have hc' : f.type ∈ imageAllowedFormats := by simpa using hc
      simp [imageUploadPOST, ht, hc', hs]

/-- Witness for C5: a video upload with a whitespace-only title AND an
invalid format reports the missing-title error, not the format
error. -/
theorem C5_validation_order_witness :
    (videoUploadPOST []
        { userId := some "u1", file := some ⟨"text/plain", 5⟩,
          title := some "   ", description := none }
        (.ok ⟨"p", "s", none, none⟩)).response = .errNoTitle :=
  (((C5_validation_order [] []
      { userId := some "u1", file := some ⟨"text/plain", 5⟩,
        title := some "   ", description := none }
      "u1" (.ok ⟨"p", "s", none, none⟩) rfl).2.1
    ⟨"text/plain", 5⟩ rfl (by decide))).1

/-- C6: on an authenticated request with a file and a valid title, the
invalid-format error occurs exactly when the declared mime type is
outside the kind's allowed list, and (for an allowed type) the
too-large error occurs exactly when the size exceeds the kind's limit;
either failure leaves the store unchanged and never reaches
Cloudinary. -/
theorem C6_format_and_size_gates
    (vs : List VideoCreateData) (ist : List ImageCreateData)
    (req : UploadRequest) (u : String) (f : FileData)
    (g : Except CloudinaryError CloudinaryUploadResult)
    (hauth : req.userId = some u) (hfile : req.file = some f)
    (htitle : titleMissing req.title = false) :
    ((videoUploadPOST vs req g).response = .errInvalidFormat ↔
      videoAllowedFormats.contains f.type = false)
    ∧ (videoAllowedFormats.contains f.type = true →
      ((videoUploadPOST vs req g).response = .errTooLarge ↔
        f.size > videoMaxFileSize))
    ∧ ((videoUploadPOST vs req g).response = .errInvalidFormat
        ∨ (videoUploadPOST vs req g).response = .errTooLarge →
      (videoUploadPOST vs req g).store = vs
      ∧ (videoUploadPOST vs req g).cloudinaryCalled = false)
    ∧ ((imageUploadPOST ist req g).response = .errInvalidFormat ↔
      imageAllowedFormats.contains f.type = false)
    ∧ (imageAllowedFormats.contains f.type = true →
      ((imageUploadPOST ist req g).response = .errTooLarge ↔
        f.size > imageMaxFileSize))
    ∧ ((imageUploadPOST ist req g).response = .errInvalidFormat
        ∨ (imageUploadPOST ist req g).response = .errTooLarge →
      (imageUploadPOST ist req g).store = ist
      ∧ (imageUploadPOST ist req g).cloudinaryCalled = false) := by
  rcases req with ⟨ru, rf, rt, rd⟩
  simp only [UploadRequest.mk.injEq] at hauth hfile htitle ⊢
  subst hauth
  subst hfile
  by_cases hcv : f.type ∈ videoAllowedFormats <;>
    by_cases hci : f.type ∈ imageAllowedFormats <;>
    by_cases hsv : f.size > videoMaxFileSize <;>
    by_cases hsi : f.size > imageMaxFileSize <;>
    cases g <;>
    simp [videoUploadPOST, imageUploadPOST, htitle, hcv, hci, hsv, hsi]

/-- C7: on a successful video upload, the created record carries the
trimmed title, trimmed-or-null description, the Cloudinary `public_id`,
the caller as owner, the request's file size as original size, the
reported bytes as compressed size (falling back to the file size when
omitted) and the reported duration (falling back to 0 when omitted),
and the record is appended to the store. -/
theorem C7_video_created_record
    (vs : List VideoCreateData) (req : UploadRequest) (u t : String)
    (f : FileData) (res : CloudinaryUploadResult)
    (hauth : req.userId = some u) (hfile : req.file = some f)
    (ht : req.title = some t) (htitle : titleMissing req.title = false)
    (hfmt : f.type ∈ videoAllowedFormats)
    (hsize : ¬ f.size > videoMaxFileSize) :
    ∃ rec,
      (videoUploadPOST vs req (.ok res)).response = .created rec res.secure_url
      ∧ (videoUploadPOST vs req (.ok res)).store = vs ++ [rec]
      ∧ rec.title = jsTrim t
      ∧ rec.description = trimOrNull req.description
      ∧ rec.publicId = res.public_id
      ∧ rec.userId = u
      ∧ rec.originalSize = f.size
      ∧ (res.bytes = none → rec.compressedSize = f.size)
      ∧ (∀ b, res.bytes = some b → b ≠ 0 → rec.compressedSize = b)
      ∧ (res.duration = none → rec.duration = 0)
      ∧ (∀ q, res.duration = some q → rec.duration = q) := by
  rcases req with ⟨ru, rf, rt, rd⟩
  simp only [UploadRequest.mk.injEq] at hauth hfile ht htitle ⊢
  subst hauth
  subst hfile
  subst ht
  let rec0 : VideoCreateData :=
    { title := jsTrim t, description := trimOrNull rd,
      publicId := res.public_id, userId := u, originalSize := f.size,
      compressedSize := jsOrNat res.bytes f.size,
      duration := jsOrRat res.duration 0 }
  refine ⟨rec0, ?_, ?_, rfl, rfl, rfl, rfl, rfl, ?_, ?_, ?_, ?_⟩
  · simp [videoUploadPOST, htitle, hfmt, hsize, rec0]
  · simp [videoUploadPOST, htitle, hfmt, hsize, rec0]
  · intro h
    simp [jsOrNat, h]
  · intro b hb hbne
    simp [jsOrNat, hb, hbne]
  · intro h
    simp [jsOrRat, h]
  · intro q hq
    simp only [jsOrRat, hq]
    split <;> simp_all

/-- Witness for C7, the spec's concrete scenario: a 15 MiB `video/mp4`
titled `demo` whose Cloudinary response reports 6000000 bytes and
duration 42.5 yields a record with originalSize 15728640,
compressedSize 6000000 and duration 42.5 (= 85/2). -/
theorem C7_video_created_record_witness :
    (∃ rec,
      (videoUploadPOST [] ⟨some "u1", some ⟨"video/mp4", 15728640⟩,
          some "demo", none⟩
        (.ok ⟨"videos/u1/123-abc", "https://cdn/v", some 6000000,
          some (85/2)⟩)).response = .created rec "https://cdn/v"
      ∧ (videoUploadPOST [] ⟨some "u1", some ⟨"video/mp4", 15728640⟩,
          some "demo", none⟩
        (.ok ⟨"videos/u1/123-abc", "https://cdn/v", some 6000000,
          some (85/2)⟩)).store = [] ++ [rec]
      ∧ rec.title = jsTrim "demo"
      ∧ rec.description = trimOrNull none
      ∧ rec.publicId = "videos/u1/123-abc"
      ∧ rec.userId = "u1"
      ∧ rec.originalSize = 15728640
      ∧ ((some 6000000 : Option Nat) = none → rec.compressedSize = 15728640)
      ∧ (∀ b, (some 6000000 : Option Nat) = some b → b ≠ 0 →
          rec.compressedSize = b)
      ∧ ((some (85/2) : Option ℚ) = none → rec.duration = 0)
      ∧ (∀ q, (some (85/2) : Option ℚ) = some q → rec.duration = q)) :=
  C7_video_created_record [] ⟨some "u1", some ⟨"video/mp4", 15728640⟩,
      some "demo", none⟩ "u1" "demo" ⟨"video/mp4", 15728640⟩
    ⟨"videos/u1/123-abc", "https://cdn/v", some 6000000, some (85/2)⟩
    rfl rfl rfl (by decide) (by decide) (by decide)

/-- C9: the too-large error is only produced for a file strictly
larger than the kind's limit, and a request whose file size equals the
limit exactly passes validation (the handler reaches the Cloudinary
call). -/
theorem C9_exact_limit_passes
    (vs : List VideoCreateData) (ist : List ImageCreateData)
    (req : UploadRequest)
    (g : Except CloudinaryError CloudinaryUploadResult) :
    ((videoUploadPOST vs req g).response = .errTooLarge →
      ∃ f, req.file = some f ∧ f.size > videoMaxFileSize)
    ∧ ((imageUploadPOST ist req g).response = .errTooLarge →
      ∃ f, req.file = some f ∧ f.size > imageMaxFileSize)
    ∧ (∀ u f, req.userId = some u → req.file = some f →
      titleMissing req.title = false →
      (f.type ∈ videoAllowedFormats → f.size = videoMaxFileSize →
        (videoUploadPOST vs req g).cloudinaryCalled = true)
      ∧ (f.type ∈ imageAllowedFormats → f.size = imageMaxFileSize →
        (imageUploadPOST ist req g).cloudinaryCalled = true)) := by
  rcases req with ⟨ru, rf, rt, rd⟩
  refine ⟨?_, ?_, ?_⟩
  · cases ru <;> cases rf <;> simp [videoUploadPOST] <;>
      split_ifs with h1 h2 h3 <;> cases g <;> simp_all
  · cases ru <;> cases rf <;> simp [imageUploadPOST] <;>
      split_ifs with h1 h2 h3 <;> cases g <;> simp_all
  · rintro u f rfl rfl htitle
    constructor <;> intro hfmt heq <;> cases g <;>
      simp [videoUploadPOST, imageUploadPOST, htitle, hfmt, heq]

/-- Witness for C9: an image of exactly 10485760 bytes (= 10 MiB) and
a video of exactly 20971520 bytes (= 20 MiB) both pass validation and
reach Cloudinary. -/
theorem C9_exact_limit_passes_witness :
    (videoUploadPOST [] ⟨some "u1", some ⟨"video/mp4", 20971520⟩,
        some "t", none⟩ (.ok ⟨"p", "s", none, none⟩)).cloudinaryCalled = true
    ∧ (imageUploadPOST [] ⟨some "u1", some ⟨"image/png", 10485760⟩,
        some "t", none⟩ (.ok ⟨"p", "s", none, none⟩)).cloudinaryCalled = true :=
  ⟨((C9_exact_limit_passes [] [] ⟨some "u1", some ⟨"video/mp4", 20971520⟩,
        some "t", none⟩ (.ok ⟨"p", "s", none, none⟩)).2.2
      "u1" ⟨"video/mp4", 20971520⟩ rfl rfl (by decide)).1 (by decide) rfl,
    ((C9_exact_limit_passes [] [] ⟨some "u1", some ⟨"image/png", 10485760⟩,
        some "t", none⟩ (.ok ⟨"p", "s", none, none⟩)).2.2
      "u1" ⟨"image/png", 10485760⟩ rfl rfl (by decide)).2 (by decide) rfl⟩

/-- C10: the compressed-size fallback treats a reported value of 0 the
same as an absent one — the created video record's compressedSize is
the original file size — and a description that is whitespace-only
after trimming is persisted as null on both routes. -/
theorem C10_zero_bytes_and_blank_description
    (vs : List VideoCreateData) (ist : List ImageCreateData)
    (req : UploadRequest) (u : String) (f : FileData) (dsc : String)
    (res : CloudinaryUploadResult)
    (hauth : req.userId = some u) (hfile : req.file = some f)
    (htitle : titleMissing req.title = false)
    (hdesc : req.description = some dsc)
    (hblank : (jsTrim dsc).data.isEmpty = true)
    (hbytes : res.bytes = some 0) :
    (f.type ∈ videoAllowedFormats → ¬ f.size > videoMaxFileSize →
      ∃ rec, (videoUploadPOST vs req (.ok res)).response =
          .created rec res.secure_url
        ∧ rec.compressedSize = f.size
        ∧ rec.description = none)
    ∧ (f.type ∈ imageAllowedFormats → ¬ f.size > imageMaxFileSize →
      ∃ rec, (imageUploadPOST ist req (.ok res)).response =
          .created rec res.secure_url
        ∧ rec.description = none) := by
  rcases req with ⟨ru, rf, rt, rd⟩
  simp only [UploadRequest.mk.injEq] at hauth hfile hdesc htitle ⊢
  subst hauth
  subst hfile
  subst hdesc
  constructor <;> intro hfmt hsize
  · let rec0 : VideoCreateData :=
      { title := jsTrim (rt.getD ""), description := trimOrNull (some dsc),
        publicId := res.public_id, userId := u, originalSize := f.size,
        compressedSize := jsOrNat res.bytes f.size,
        duration := jsOrRat res.duration 0 }
    refine ⟨rec0, ?_, ?_, ?_⟩
    · simp [videoUploadPOST, htitle, hfmt, hsize, rec0]
    · simp [rec0, jsOrNat, hbytes]
    · simp [rec0, trimOrNull, hblank]
  · let rec0 : ImageCreateData :=
      { title := jsTrim (rt.getD ""), description := trimOrNull (some dsc),
        publicId := res.public_id, originalSize := f.size }
    refine ⟨rec0, ?_, ?_⟩
    · simp [imageUploadPOST, htitle, hfmt, hsize, rec0]
    · simp [rec0, trimOrNull, hblank]

/-- Witness for C10: Cloudinary reports `bytes: 0` and the description
is three spaces; the created record has compressedSize 777 (the file
size) and a null description. -/
theorem C10_zero_bytes_and_blank_description_witness :
    ∃ rec, (videoUploadPOST [] ⟨some "u1", some ⟨"video/mp4", 777⟩,
        some "t", some "   "⟩ (.ok ⟨"p", "s", some 0, none⟩)).response =
        .created rec "s"
      ∧ rec.compressedSize = 777
      ∧ rec.description = none :=
  (C10_zero_bytes_and_blank_description [] []
      ⟨some "u1", some ⟨"video/mp4", 777⟩, some "t", some "   "⟩
      "u1" ⟨"video/mp4", 777⟩ "   " ⟨"p", "s", some 0, none⟩
      rfl rfl (by decide) rfl (by decide) rfl).1 (by decide) (by decide)

/-- Witness for C6: an `image/gif` upload (outside the image allowed
list) by `u1` fails with the invalid-format error. -/
theorem C6_format_and_size_gates_witness :
    (imageUploadPOST []
        { userId := some "u1", file := some ⟨"image/gif", 5⟩,
          title := some "t", description := none }
        (.ok ⟨"p", "s", none, none⟩)).response = .errInvalidFormat :=
  ((C6_format_and_size_gates [] []
      { userId := some "u1", file := some ⟨"image/gif", 5⟩,
        title := some "t", description := none }
      "u1" ⟨"image/gif", 5⟩ (.ok ⟨"p", "s", none, none⟩)
      rfl rfl (by decide)).2.2.2.1).mpr (by decide)

end VideoStore
